import Mathlib

/-!
Shallow embedding of the school-management backend core: the grade
derivation and update logic (routes/grades), the attendance batch
marking, per-student statistics and class summary (routes/attendance),
the course enrollment capacity guard (routes/courses), and the
per-request authorization gate of the student-attendance endpoint.
Document ids are naturals, JS numbers are rationals, JS dates are a
calendar day index plus milliseconds within the day.
-/

namespace SchoolLMS

/-- Object ids of the record store. -/
abbrev OId := Nat

/-- JS Math.round on a nonnegative rational: floor of q + 1/2. -/
def jsRound (q : ℚ) : ℤ := ⌊q + 1/2⌋

/-- A point in time: calendar day index and milliseconds within the day. -/
structure CalDate where
  day : Nat
  ms : Nat
deriving DecidableEq, Repr

/-! ## Grade aggregator (routes/grades) -/

/-- Letter-grade threshold chain as written in the POST /grades handler. -/
def letterGradeCreate (percentage : ℚ) : String :=
  if percentage ≥ 90 then "A+"
  else if percentage ≥ 85 then "A"
  else if percentage ≥ 80 then "A-"
  else if percentage ≥ 75 then "B+"
  else if percentage ≥ 70 then "B"
  else if percentage ≥ 65 then "B-"
  else if percentage ≥ 60 then "C+"
  else if percentage ≥ 55 then "C"
  else if percentage ≥ 50 then "C-"
  else if percentage ≥ 45 then "D"
  else "F"

/-- Letter-grade threshold chain as written in the PUT /grades/:id handler. -/
def letterGradeUpdate (percentage : ℚ) : String :=
  if percentage ≥ 90 then "A+"
  else if percentage ≥ 85 then "A"
  else if percentage ≥ 80 then "A-"
  else if percentage ≥ 75 then "B+"
  else if percentage ≥ 70 then "B"
  else if percentage ≥ 65 then "B-"
  else if percentage ≥ 60 then "C+"
  else if percentage ≥ 55 then "C"
  else if percentage ≥ 50 then "C-"
  else if percentage ≥ 45 then "D"
  else "F"

/-- The letter-grade table as the specification words it: inclusive lower
bounds 90, 85, 80, 75, 70, 65, 60, 55, 50, 45, else F. -/
def letterGradeSpecTable (p : ℚ) : String :=
  if 90 ≤ p then "A+"
  else if 85 ≤ p then "A"
  else if 80 ≤ p then "A-"
  else if 75 ≤ p then "B+"
  else if 70 ≤ p then "B"
  else if 65 ≤ p then "B-"
  else if 60 ≤ p then "C+"
  else if 55 ≤ p then "C"
  else if 50 ≤ p then "C-"
  else if 45 ≤ p then "D"
  else "F"

/-- A persisted grade document; fields mirror the mongoose Grade model,
each one optional to track the handler checks against undefined. -/
structure GradeDoc where
  pointsEarned : Option ℚ
  maxPoints : Option ℚ
  percentage : Option ℚ
  letterGrade : Option String
  feedback : Option String
deriving DecidableEq, Repr

/-- Body of a PUT /grades/:id request: each field may be absent. -/
structure GradeUpdateBody where
  pointsEarned : Option ℚ
  maxPoints : Option ℚ
  feedback : Option String
deriving DecidableEq, Repr

/-- JS comparison a greater than b where b may be undefined: any
comparison with undefined evaluates to false. -/
def jsGtOpt (a : ℚ) (b : Option ℚ) : Bool :=
  match b with
  | some x => a > x
  | none => false

/-- Recomputation step of the PUT /grades/:id handler: when both document
fields pointsEarned and maxPoints are defined after the patch, recompute
percentage and letterGrade from them; otherwise leave them untouched. -/
def recomputeDerived (g : GradeDoc) : GradeDoc :=
  match g.pointsEarned, g.maxPoints with
  | some pe, some mp =>
      let pct := pe / mp * 100
      { g with percentage := some pct, letterGrade := some (letterGradeUpdate pct) }
  | _, _ => g

/-- Feedback patch step of the PUT /grades/:id handler. -/
def applyFeedback (g : GradeDoc) (b : GradeUpdateBody) : GradeDoc :=
  match b.feedback with
  | some f => { g with feedback := some f }
  | none => g

/-- PUT /grades/:id after the grade is found and authorization passed:
validate and patch pointsEarned (the bound check compares against the
request-body maxPoints, which may be undefined), validate and patch
maxPoints, recompute derived fields, patch feedback, save. -/
def updateGrade (g : GradeDoc) (b : GradeUpdateBody) : Except (Nat × String) GradeDoc :=
  match b.pointsEarned with
  | some pe =>
      if pe < 0 ∨ jsGtOpt pe b.maxPoints then
        .error (400, "Points earned must be between 0 and max points")
      else
        updateGradeAfterPoints { g with pointsEarned := some pe } b
  | none => updateGradeAfterPoints g b
where
  updateGradeAfterPoints (g1 : GradeDoc) (b : GradeUpdateBody) : Except (Nat × String) GradeDoc :=
    match b.maxPoints with
    | some mp =>
        if mp ≤ 0 then
          .error (400, "Max points must be greater than 0")
        else
          .ok (applyFeedback (recomputeDerived { g1 with maxPoints := some mp }) b)
    | none => .ok (applyFeedback (recomputeDerived g1) b)

/-! ## Attendance data model and batch marking (routes/attendance) -/

/-- A persisted attendance record, mirroring the mongoose Attendance model. -/
structure AttendanceRecord where
  attId : OId
  student : OId
  course : OId
  date : CalDate
  status : String
  method : String
  markedBy : OId
deriving DecidableEq, Repr

/-- A course document, mirroring the fields the handlers consult. -/
structure Course where
  courseId : OId
  instructor : OId
  enrolledStudents : List OId
  maxEnrollment : Option Nat
deriving DecidableEq, Repr

/-- A student document, mirroring the fields the handlers consult; class
and section are renamed classId and sectionId (Lean keywords). -/
structure Student where
  sid : OId
  user : OId
  parent : Option OId
  classId : OId
  sectionId : OId
deriving DecidableEq, Repr

/-- One element of the attendanceRecords array of POST /attendance/mark;
every field may be absent. -/
structure MarkInput where
  student : Option OId
  course : Option OId
  date : Option CalDate
  status : Option String
  method : Option String
deriving DecidableEq, Repr

/-- Outcome tag of a successful item of the batch. -/
inductive MarkOutcome
  | marked
  | alreadyMarked
deriving DecidableEq, Repr

/-- One entry of the results array of the batch response. -/
structure MarkResult where
  record : MarkInput
  attendanceId : OId
  outcome : MarkOutcome
deriving DecidableEq, Repr

/-- One entry of the errors array of the batch response. -/
structure MarkError where
  record : MarkInput
  error : String
deriving DecidableEq, Repr

/-- State carried through the batch loop: the attendance store, the next
fresh id the store will assign, and the accumulated results and errors. -/
structure BatchState where
  store : List AttendanceRecord
  nextId : OId
  results : List MarkResult
  errors : List MarkError
deriving DecidableEq, Repr

/-- Course lookup by id. -/
def findCourse (courses : List Course) (cid : OId) : Option Course :=
  courses.find? (fun co => co.courseId == cid)

/-- Lookup of an attendance record of the same student, course and
calendar day, mirroring the findOne query whose date bounds are midnight
and next midnight of the given date. -/
def findSameDay (store : List AttendanceRecord) (s c : OId) (d : CalDate) :
    Option AttendanceRecord :=
  store.find? (fun r => r.student == s && r.course == c && r.date.day == d.day)

/-- Number of persisted records of the same student, course and calendar day. -/
def countSameDay (store : List AttendanceRecord) (s c : OId) (d : CalDate) : Nat :=
  (store.filter (fun r => r.student == s && r.course == c && r.date.day == d.day)).length

/-- Body of the loop of POST /attendance/mark for one input record:
missing-field check, course-enrollment check, same-day duplicate check
(reported as alreadyMarked without mutation), then create.  The
createFails oracle models a store exception thrown at the create call
(for example a duplicate-key rejection), caught by the surrounding
try/catch and appended to the error list. -/
def markOne (courses : List Course) (userId : OId)
    (createFails : MarkInput → Option String) (st : BatchState)
    (rec : MarkInput) : BatchState :=
  match rec.student, rec.course, rec.date, rec.status with
  | some s, some c, some d, some stat =>
    match findCourse courses c with
    | some co =>
      if s ∈ co.enrolledStudents then
        match findSameDay st.store s c d with
        | some ex =>
            { st with results := st.results ++ [⟨rec, ex.attId, .alreadyMarked⟩] }
        | none =>
            match createFails rec with
            | some msg => { st with errors := st.errors ++ [⟨rec, msg⟩] }
            | none =>
                { st with
                  store := st.store ++
                    [⟨st.nextId, s, c, d, stat, rec.method.getD "manual", userId⟩],
                  nextId := st.nextId + 1,
                  results := st.results ++ [⟨rec, st.nextId, .marked⟩] }
      else
        { st with errors :=
            st.errors ++ [⟨rec, "Student is not enrolled in this course"⟩] }
    | none =>
        { st with errors :=
            st.errors ++ [⟨rec, "Student is not enrolled in this course"⟩] }
  | _, _, _, _ =>
      { st with errors :=
          st.errors ++ [⟨rec, "Missing required fields: student, course, date, status"⟩] }

/-- The batch loop of POST /attendance/mark over all input records. -/
def markBatch (courses : List Course) (userId : OId)
    (createFails : MarkInput → Option String) (store0 : List AttendanceRecord)
    (nid0 : OId) (records : List MarkInput) : BatchState :=
  records.foldl (markOne courses userId createFails) ⟨store0, nid0, [], []⟩

/-- Response envelope of POST /attendance/mark. -/
structure BatchResponse where
  results : List MarkResult
  errors : List MarkError
  processed : Nat
  failed : Nat
deriving DecidableEq, Repr

/-- POST /attendance/mark: reject an empty records array with 400, else
run the batch loop and return the envelope together with the final store. -/
def markRoute (courses : List Course) (userId : OId)
    (createFails : MarkInput → Option String) (store0 : List AttendanceRecord)
    (nid0 : OId) (records : List MarkInput) :
    Except (Nat × String) (BatchResponse × List AttendanceRecord) :=
  if records.isEmpty then
    .error (400, "Please provide attendance records")
  else
    let st := markBatch courses userId createFails store0 nid0 records
    .ok (⟨st.results, st.errors, st.results.length, st.errors.length⟩, st.store)

/-! ## Per-student attendance statistics (GET /attendance/student/:studentId) -/

/-- Timestamp order on dates. -/
def dateLE (a b : CalDate) : Bool :=
  a.day * 86400000 + a.ms ≤ b.day * 86400000 + b.ms

/-- Date-range filter built from optional startDate and endDate query
parameters: gte startDate and lte endDate when present. -/
def dateInRange (sd ed : Option CalDate) (d : CalDate) : Bool :=
  (match sd with
   | some a => dateLE a d
   | none => true) &&
  (match ed with
   | some b => dateLE d b
   | none => true)

/-- The query of GET /attendance/student/:studentId: student id, optional
course filter, optional date range. -/
def attMatches (sid : OId) (courseF : Option OId) (sd ed : Option CalDate)
    (r : AttendanceRecord) : Bool :=
  r.student == sid &&
  (match courseF with
   | some c => r.course == c
   | none => true) &&
  dateInRange sd ed r.date

/-- Statistics block of the GET /attendance/student/:studentId response. -/
structure AttStatistics where
  total : Nat
  present : Nat
  absent : Nat
  attendanceRate : ℤ
deriving DecidableEq, Repr

/-- Statistics computation of GET /attendance/student/:studentId: fetch
all records matching the query, count the present ones, and compute the
rounded rate, zero when there are no records. -/
def studentStatistics (store : List AttendanceRecord) (sid : OId)
    (courseF : Option OId) (sd ed : Option CalDate) : AttStatistics :=
  let allRecords := store.filter (attMatches sid courseF sd ed)
  let presentCount := (allRecords.filter (fun r => r.status == "present")).length
  let totalCount := allRecords.length
  let rate : ℤ :=
    if totalCount > 0 then jsRound ((presentCount : ℚ) / (totalCount : ℚ) * 100) else 0
  ⟨totalCount, presentCount, totalCount - presentCount, rate⟩

/-- Authorization check of GET /attendance/student/:studentId, transcribed
from the handler: true means the request proceeds to return attendance
data, false means an early 403 response.  Non-admin callers are checked
only when their role is student (ownership of the student document) or
parent (match against the parent reference when one is set); no other
role is checked. -/
def attendanceStudentGate (callerId : OId) (role : String) (student : Student) : Bool :=
  if role == "admin" then true
  else if role == "student" && student.user != callerId then false
  else if role == "parent" &&
      (match student.parent with
       | some p => p != callerId
       | none => false) then false
  else true

/-! ## Class attendance summary (GET /attendance/class/:classId) -/

/-- Membership of a student in the class, with optional section filter. -/
def studentInClass (classId : OId) (sec : Option OId) (s : Student) : Bool :=
  s.classId == classId &&
  (match sec with
   | some x => s.sectionId == x
   | none => true)

/-- Per-student statistics block inside the class summary. -/
structure PerStudentStats where
  total : Nat
  present : Nat
  absent : Nat
  rate : ℤ
deriving DecidableEq, Repr

/-- Grouping step of the class summary: statistics of one student over
the fetched class records, rate zero when the student has no records. -/
def perStudentStats (records : List AttendanceRecord) (sid : OId) : PerStudentStats :=
  let rs := records.filter (fun r => r.student == sid)
  let present := (rs.filter (fun r => r.status == "present")).length
  let total := rs.length
  let rate : ℤ :=
    if total > 0 then jsRound ((present : ℚ) / (total : ℚ) * 100) else 0
  ⟨total, present, total - present, rate⟩

/-- The classSummary block of the GET /attendance/class/:classId response. -/
structure ClassSummary where
  totalStudents : Nat
  studentsWithAttendance : Nat
  classAverage : ℤ
deriving DecidableEq, Repr

/-- GET /attendance/class/:classId: collect the students of the class
(optionally restricted to a section), fetch their attendance records in
the range, compute per-student statistics, and average the rates of the
students having at least one record. -/
def classSummaryRoute (students : List Student) (store : List AttendanceRecord)
    (classId : OId) (sec : Option OId) (sd ed : Option CalDate) :
    ClassSummary × List (OId × PerStudentStats) :=
  let sts := students.filter (studentInClass classId sec)
  let ids := sts.map (fun s => s.sid)
  let records := store.filter (fun r => ids.contains r.student && dateInRange sd ed r.date)
  let byStudent := ids.map (fun i => (i, perStudentStats records i))
  let withAtt := byStudent.filter (fun p => p.2.total > 0)
  let rates : List ℤ := withAtt.map (fun p => p.2.rate)
  let classAverage : ℤ :=
    if rates.length > 0 then jsRound (((rates.sum : ℤ) : ℚ) / ((rates.length : ℕ) : ℚ))
    else 0
  (⟨ids.length, withAtt.length, classAverage⟩, byStudent)

/-! ## Course enrollment capacity guard (POST /courses/:id/enroll) -/

/-- POST /courses/:id/enroll after the course is found: empty-array 400,
capacity guard against the current enrolledStudents (maxEnrollment falsy
means no bound), existence check of the incoming student ids, filter of
the already-enrolled ids, then append.  Returns the saved course, the
newly enrolled ids and the message. -/
def enrollStudents (existingStudentIds : List OId) (course : Course)
    (students : List OId) : Except (Nat × String) (Course × List OId × String) :=
  if students.isEmpty then
    .error (400, "Please provide an array of student IDs")
  else if (match course.maxEnrollment with
           | some m => m != 0 && course.enrolledStudents.length + students.length > m
           | none => false) then
    .error (400, "Cannot enroll more than " ++ toString (course.maxEnrollment.getD 0) ++
      " students in this course")
  else
    let notFoundStudents := students.filter (fun s => !(existingStudentIds.contains s))
    if !notFoundStudents.isEmpty then
      .error (404, "Students not found: " ++
        String.intercalate ", " (notFoundStudents.map toString))
    else
      let newStudents := students.filter (fun s => !(course.enrolledStudents.contains s))
      if newStudents.isEmpty then
        .ok (course, [], "Students already enrolled in course")
      else
        ( .ok ({ course with enrolledStudents := course.enrolledStudents ++ newStudents },
            newStudents,
            toString newStudents.length ++ " students enrolled successfully") )

/-! ## Concrete fixtures and auxiliary definitions used by the theorems -/

/-- Stored grade used as the concrete input of the claim C4 analysis:
pointsEarned 10, maxPoints 20, derived percentage 50 and letter C-. -/
def c4StoredGrade : GradeDoc :=
  ⟨some 10, some 20, some 50, some "C-", none⟩

/-- Update body supplying only pointsEarned. -/
def c4PointsOnlyBody : GradeUpdateBody :=
  ⟨some 20, none, none⟩

/-- Status normalization mapping a late or excused record to an absent
one; the statistics endpoint treats all three identically. -/
def normalizeLateExcused (r : AttendanceRecord) : AttendanceRecord :=
  if r.status == "late" || r.status == "excused" then { r with status := "absent" } else r

/-- Three students of class 7, used for the class-summary example. -/
def c6Students : List Student :=
  [⟨1, 101, none, 7, 70⟩, ⟨2, 102, none, 7, 70⟩, ⟨3, 103, none, 7, 70⟩]

/-- Attendance store giving student 1 rate 100, student 2 rate 50 and
student 3 no records at all. -/
def c6Store : List AttendanceRecord :=
  [⟨1000, 1, 50, ⟨0, 0⟩, "present", "manual", 9⟩,
   ⟨1001, 2, 50, ⟨0, 0⟩, "present", "manual", 9⟩,
   ⟨1002, 2, 50, ⟨1, 0⟩, "absent", "manual", 9⟩]

/-- Course fixture for the attendance-marking witnesses: course 50 taught
by teacher 9 with student 1 enrolled. -/
def c3Course : Course := ⟨50, 9, [1], none⟩

/-- Batch input marking student 1 present in course 50 on day 5. -/
def c3Input : MarkInput := ⟨some 1, some 50, some ⟨5, 0⟩, some "present", none⟩

/-- A persisted record of student 1 in course 50 later on the same day 5. -/
def c3Existing : AttendanceRecord := ⟨70, 1, 50, ⟨5, 300⟩, "present", "manual", 9⟩

/-! ## Theorems -/

/-- The length of the filter of the negated predicate is the length of
the list minus the length of the filter of the predicate. -/
theorem length_filter_not_eq {α : Type _} (p : α → Bool) (l : List α) :
    (l.filter (fun a => !(p a))).length = l.length - (l.filter p).length := by
  induction l with
  | nil => rfl
  | cons a l ih =>
      have hle := List.length_filter_le p l
      cases hpa : p a <;> simp [List.filter_cons, hpa, ih]
      all_goals omega

/-- Filtering commutes with mapping a function that preserves the
predicate. -/
theorem filter_map_comm {α : Type _} (f : α → α) (p : α → Bool)
    (h : ∀ a, p (f a) = p a) : ∀ l : List α, (l.map f).filter p = (l.filter p).map f := by
  intro l
  induction l with
  | nil => rfl
  | cons a l ih =>
      simp only [List.map_cons, List.filter_cons, h a]
      cases hpa : p a <;> simp [ih]

/-- Status normalization preserves the student, course and date filter of
the statistics query. -/
theorem normalize_preserves_attMatches (sid : OId) (courseF : Option OId)
    (sd ed : Option CalDate) (r : AttendanceRecord) :
    attMatches sid courseF sd ed (normalizeLateExcused r) = attMatches sid courseF sd ed r := by
  unfold normalizeLateExcused
  split <;> rfl

/-- Status normalization preserves being a present record. -/
theorem normalize_preserves_present (r : AttendanceRecord) :
    ((normalizeLateExcused r).status == "present") = (r.status == "present") := by
  unfold normalizeLateExcused
  split
  · next h =>
      rcases Bool.or_eq_true_iff.mp h with h | h <;>
        rw [beq_iff_eq.mp h] <;> rfl
  · rfl

/-- Claim C2: the letter-grade derivation in grade creation and in grade
update both return exactly the inclusive-lower-bound threshold table of
the specification, and in particular percentage 90.0 gives A+ while
percentage 89.99 gives A. -/
theorem letterGrade_matches_spec_table :
    (∀ p : ℚ, letterGradeCreate p = letterGradeSpecTable p) ∧
    (∀ p : ℚ, letterGradeUpdate p = letterGradeSpecTable p) ∧
    letterGradeCreate 90 = "A+" ∧ letterGradeUpdate 90 = "A+" ∧
    letterGradeCreate (8999 / 100) = "A" ∧ letterGradeUpdate (8999 / 100) = "A" := by
  refine ⟨fun p => rfl, fun p => rfl, ?_, ?_, ?_, ?_⟩ <;>
    norm_num [letterGradeCreate, letterGradeUpdate]

/-- Claim C1, evidence of the code bug: the authorization check of GET
/attendance/student/:studentId allows a teacher whose identity is
unrelated to any course instructor (the check never consults courses or
teacher profiles), and likewise allows a caller of any unlisted role,
although the comment above the check and the specification require such
callers to be denied with a 403. -/
theorem attendanceStudentGate_allows_unrelated_teacher :
    attendanceStudentGate 99 "teacher" ⟨1, 11, some 12, 7, 70⟩ = true ∧
    attendanceStudentGate 98 "accountant" ⟨1, 11, some 12, 7, 70⟩ = true := by
  decide

/-- Claim C4 is false on the code: updating only pointsEarned of a stored
grade recomputes percentage (50 becomes 100) and letterGrade (C- becomes
A+) immediately, because the recomputation guard reads the patched
document fields, which are always defined for a stored grade; nothing is
left stale. -/
theorem updateGrade_points_only_recomputes :
    updateGrade c4StoredGrade c4PointsOnlyBody =
      Except.ok ⟨some 20, some 20, some 100, some "A+", none⟩ ∧
    c4StoredGrade.percentage = some 50 := by
  constructor
  · norm_num [updateGrade, updateGrade.updateGradeAfterPoints, recomputeDerived,
      applyFeedback, jsGtOpt, c4StoredGrade, c4PointsOnlyBody, letterGradeUpdate]
  · rfl

/-- The feedback patch step touches no field other than feedback. -/
theorem applyFeedback_core (g : GradeDoc) (b : GradeUpdateBody) :
    (applyFeedback g b).pointsEarned = g.pointsEarned ∧
    (applyFeedback g b).maxPoints = g.maxPoints ∧
    (applyFeedback g b).percentage = g.percentage ∧
    (applyFeedback g b).letterGrade = g.letterGrade := by
  unfold applyFeedback
  cases b.feedback <;> simp

/-- Claim C4 as amended: a grade update supplying only one of pointsEarned
and maxPoints does recompute the derived fields, using the existing stored
value of the unsupplied operand; derived fields could only stay stale if
the stored document itself lacked one of the two fields, which grade
creation makes impossible. -/
theorem updateGrade_always_recomputes_derived :
    ∀ (g : GradeDoc) (b : GradeUpdateBody) (pe0 mp0 : ℚ) (g2 : GradeDoc),
      g.pointsEarned = some pe0 → g.maxPoints = some mp0 →
      updateGrade g b = .ok g2 →
      g2.pointsEarned = some (b.pointsEarned.getD pe0) ∧
      g2.maxPoints = some (b.maxPoints.getD mp0) ∧
      g2.percentage = some (b.pointsEarned.getD pe0 / b.maxPoints.getD mp0 * 100) ∧
      g2.letterGrade =
        some (letterGradeUpdate (b.pointsEarned.getD pe0 / b.maxPoints.getD mp0 * 100)) := by
  intro g b pe0 mp0 g2 hpe hmp hok
  rcases g with ⟨gpe, gmp, gpc, glg, gfb⟩
  rcases b with ⟨bpe, bmp, bfb⟩
  simp only at hpe hmp
  subst hpe hmp
  have key : g2 = applyFeedback (recomputeDerived
      ⟨some (bpe.getD pe0), some (bmp.getD mp0), gpc, glg, gfb⟩) ⟨bpe, bmp, bfb⟩ := by
    rcases bpe with _ | pe <;> rcases bmp with _ | mp <;>
      simp only [updateGrade, updateGrade.updateGradeAfterPoints, jsGtOpt,
        Option.getD_none, Option.getD_some] at hok ⊢
    · exact ((Except.ok.injEq _ _).mp hok).symm
    · split at hok
      · exact absurd hok (by simp)
      · exact ((Except.ok.injEq _ _).mp hok).symm
    · split at hok
      · exact absurd hok (by simp)
      · exact ((Except.ok.injEq _ _).mp hok).symm
    · split at hok
      · exact absurd hok (by simp)
      · split at hok
        · exact absurd hok (by simp)
        · exact ((Except.ok.injEq _ _).mp hok).symm
  subst key
  have h := applyFeedback_core (recomputeDerived
    ⟨some (bpe.getD pe0), some (bmp.getD mp0), gpc, glg, gfb⟩) ⟨bpe, bmp, bfb⟩
  refine ⟨h.1.trans ?_, h.2.1.trans ?_, h.2.2.1.trans ?_, h.2.2.2.trans ?_⟩ <;>
    simp [recomputeDerived]

/-- Witness for the amended claim C4 at a concrete input. -/
theorem updateGrade_always_recomputes_derived_witness :
    (⟨some 20, some 20, some 100, some "A+", none⟩ : GradeDoc).pointsEarned =
      some ((some (20 : ℚ)).getD 10) ∧
    (⟨some 20, some 20, some 100, some "A+", none⟩ : GradeDoc).maxPoints =
      some ((none : Option ℚ).getD 20) ∧
    (⟨some 20, some 20, some 100, some "A+", none⟩ : GradeDoc).percentage =
      some ((some (20 : ℚ)).getD 10 / (none : Option ℚ).getD 20 * 100) ∧
    (⟨some 20, some 20, some 100, some "A+", none⟩ : GradeDoc).letterGrade =
      some (letterGradeUpdate ((some (20 : ℚ)).getD 10 / (none : Option ℚ).getD 20 * 100)) :=
  updateGrade_always_recomputes_derived c4StoredGrade c4PointsOnlyBody 10 20
    ⟨some 20, some 20, some 100, some "A+", none⟩ rfl rfl
    (by norm_num [updateGrade, updateGrade.updateGradeAfterPoints, recomputeDerived,
      applyFeedback, jsGtOpt, c4StoredGrade, c4PointsOnlyBody, letterGradeUpdate])

/-- Claim C5: an update changing only pointsEarned recomputes percentage
as pointsEarned over the existing stored maxPoints times 100, and an
update changing only maxPoints recomputes percentage from the existing
stored pointsEarned; letterGrade follows the recomputed percentage. -/
theorem updateGrade_single_operand_uses_stored :
    ∀ (g : GradeDoc) (pe0 mp0 : ℚ), g.pointsEarned = some pe0 → g.maxPoints = some mp0 →
      (∀ pe : ℚ, 0 ≤ pe →
        updateGrade g ⟨some pe, none, none⟩ =
          .ok { g with pointsEarned := some pe,
                       percentage := some (pe / mp0 * 100),
                       letterGrade := some (letterGradeUpdate (pe / mp0 * 100)) }) ∧
      (∀ mp : ℚ, 0 < mp →
        updateGrade g ⟨none, some mp, none⟩ =
          .ok { g with maxPoints := some mp,
                       percentage := some (pe0 / mp * 100),
                       letterGrade := some (letterGradeUpdate (pe0 / mp * 100)) }) := by
  intro g pe0 mp0 hpe hmp
  rcases g with ⟨gpe, gmp, gpc, glg, gfb⟩
  simp only at hpe hmp
  subst hpe hmp
  constructor
  · intro pe hpe0
    simp [updateGrade, updateGrade.updateGradeAfterPoints, recomputeDerived,
      applyFeedback, jsGtOpt, not_lt.mpr hpe0]
  · intro mp hmp0
    simp [updateGrade, updateGrade.updateGradeAfterPoints, recomputeDerived,
      applyFeedback, jsGtOpt, not_le.mpr hmp0]

/-- Witness for claim C5 at a concrete stored grade. -/
theorem updateGrade_single_operand_uses_stored_witness :
    updateGrade c4StoredGrade ⟨some 15, none, none⟩ =
      .ok { c4StoredGrade with pointsEarned := some (15 : ℚ),
                               percentage := some ((15 : ℚ) / 20 * 100),
                               letterGrade := some (letterGradeUpdate ((15 : ℚ) / 20 * 100)) } ∧
    updateGrade c4StoredGrade ⟨none, some 40, none⟩ =
      .ok { c4StoredGrade with maxPoints := some (40 : ℚ),
                               percentage := some ((10 : ℚ) / 40 * 100),
                               letterGrade := some (letterGradeUpdate ((10 : ℚ) / 40 * 100)) } := by
  constructor
  · exact (updateGrade_single_operand_uses_stored c4StoredGrade 10 20 rfl rfl).1
      15 (by norm_num)
  · exact (updateGrade_single_operand_uses_stored c4StoredGrade 10 20 rfl rfl).2
      40 (by norm_num)

/-- Every iteration of the batch loop adds exactly one entry, either to
the results list or to the errors list. -/
theorem markOne_adds_one_outcome (courses : List Course) (userId : OId)
    (createFails : MarkInput → Option String) (st : BatchState) (rec : MarkInput) :
    (markOne courses userId createFails st rec).results.length +
      (markOne courses userId createFails st rec).errors.length =
    st.results.length + st.errors.length + 1 := by
  rcases rec with ⟨os, oc, od, ostat, om⟩
  rcases os with _ | s <;> rcases oc with _ | c <;> rcases od with _ | d <;>
    rcases ostat with _ | stat <;>
    try (simp [markOne]; omega)
  cases hco : findCourse courses c with
  | none => simp [markOne, hco]; omega
  | some co =>
      by_cases hs : s ∈ co.enrolledStudents
      · cases hex : findSameDay st.store s c d with
        | some ex => simp [markOne, hco, hs, hex]; omega
        | none =>
            cases hcf : createFails ⟨some s, some c, some d, some stat, om⟩ with
            | some msg => simp [markOne, hco, hs, hex, hcf]; omega
            | none => simp [markOne, hco, hs, hex, hcf]; omega
      · simp [markOne, hco, hs]; omega

/-- The batch loop handles every record exactly once. -/
theorem markBatch_foldl_counts (courses : List Course) (userId : OId)
    (createFails : MarkInput → Option String) :
    ∀ (records : List MarkInput) (st : BatchState),
      (records.foldl (markOne courses userId createFails) st).results.length +
        (records.foldl (markOne courses userId createFails) st).errors.length =
      st.results.length + st.errors.length + records.length := by
  intro records
  induction records with
  | nil => intro st; simp
  | cons r rs ih =>
      intro st
      simp only [List.foldl_cons, List.length_cons]
      rw [ih (markOne courses userId createFails st r)]
      have h := markOne_adds_one_outcome courses userId createFails st r
      omega

/-- Claim C8: the attendance batch never aborts; for every nonempty input
list the route returns the itemized results, the itemized errors and the
counts processed and failed, and every input record lands in exactly one
of the two lists, so results plus errors exhaust the input. -/
theorem markRoute_best_effort :
    ∀ (courses : List Course) (userId : OId) (createFails : MarkInput → Option String)
      (store0 : List AttendanceRecord) (nid0 : OId) (records : List MarkInput),
      records ≠ [] →
      markRoute courses userId createFails store0 nid0 records =
        .ok (⟨(markBatch courses userId createFails store0 nid0 records).results,
              (markBatch courses userId createFails store0 nid0 records).errors,
              (markBatch courses userId createFails store0 nid0 records).results.length,
              (markBatch courses userId createFails store0 nid0 records).errors.length⟩,
             (markBatch courses userId createFails store0 nid0 records).store) ∧
      (markBatch courses userId createFails store0 nid0 records).results.length +
        (markBatch courses userId createFails store0 nid0 records).errors.length =
        records.length := by
  intro courses userId createFails store0 nid0 records hne
  constructor
  · simp [markRoute, List.isEmpty_iff, hne]
  · have h := markBatch_foldl_counts courses userId createFails records ⟨store0, nid0, [], []⟩
    simpa [markBatch] using h

/-- Witness for claim C8: a batch of one record with missing fields is
processed without aborting, yielding zero results and one error. -/
theorem markRoute_best_effort_witness :
    markRoute [] 0 (fun _ => none) [] 0 [⟨none, none, none, none, none⟩] =
      .ok (⟨(markBatch [] 0 (fun _ => none) [] 0 [⟨none, none, none, none, none⟩]).results,
            (markBatch [] 0 (fun _ => none) [] 0 [⟨none, none, none, none, none⟩]).errors,
            (markBatch [] 0 (fun _ => none) [] 0
              [⟨none, none, none, none, none⟩]).results.length,
            (markBatch [] 0 (fun _ => none) [] 0
              [⟨none, none, none, none, none⟩]).errors.length⟩,
           (markBatch [] 0 (fun _ => none) [] 0 [⟨none, none, none, none, none⟩]).store) ∧
    (markBatch [] 0 (fun _ => none) [] 0 [⟨none, none, none, none, none⟩]).results.length +
      (markBatch [] 0 (fun _ => none) [] 0 [⟨none, none, none, none, none⟩]).errors.length =
      [(⟨none, none, none, none, none⟩ : MarkInput)].length :=
  markRoute_best_effort [] 0 (fun _ => none) [] 0 [⟨none, none, none, none, none⟩]
    (by simp)

/-- Claim C3: a batch item whose (student, course, calendar day) already
has a persisted record creates nothing and mutates nothing, and is
reported with status already marked; consequently marking the same
(student, course, date) twice in one batch persists exactly one record,
the second item reporting already marked. -/
theorem markBatch_same_day_idempotent :
    (∀ (courses : List Course) (userId : OId) (createFails : MarkInput → Option String)
       (st : BatchState) (rec : MarkInput) (s c : OId) (d : CalDate) (stat : String)
       (co : Course) (ex : AttendanceRecord),
       rec.student = some s → rec.course = some c → rec.date = some d →
       rec.status = some stat → findCourse courses c = some co →
       s ∈ co.enrolledStudents → findSameDay st.store s c d = some ex →
       markOne courses userId createFails st rec =
         { st with results := st.results ++ [⟨rec, ex.attId, .alreadyMarked⟩] }) ∧
    (∀ (courses : List Course) (userId : OId) (createFails : MarkInput → Option String)
       (store0 : List AttendanceRecord) (nid0 : OId) (rec : MarkInput)
       (s c : OId) (d : CalDate) (stat : String) (co : Course),
       rec.student = some s → rec.course = some c → rec.date = some d →
       rec.status = some stat → findCourse courses c = some co →
       s ∈ co.enrolledStudents → createFails rec = none →
       countSameDay store0 s c d = 0 →
       countSameDay (markBatch courses userId createFails store0 nid0 [rec, rec]).store
           s c d = 1 ∧
       (markBatch courses userId createFails store0 nid0 [rec, rec]).results =
         [⟨rec, nid0, .marked⟩, ⟨rec, nid0, .alreadyMarked⟩] ∧
       (markBatch courses userId createFails store0 nid0 [rec, rec]).errors = []) := by
  constructor
  · intro courses userId createFails st rec s c d stat co ex h1 h2 h3 h4 hco hs hex
    rcases rec with ⟨os, oc, od, ostat, om⟩
    simp only at h1 h2 h3 h4
    subst h1 h2 h3 h4
    simp [markOne, hco, hs, hex]
  · intro courses userId createFails store0 nid0 rec s c d stat co h1 h2 h3 h4 hco hs hcf h0
    rcases rec with ⟨os, oc, od, ostat, om⟩
    simp only at h1 h2 h3 h4
    subst h1 h2 h3 h4
    have hnil : store0.filter
        (fun r => r.student == s && r.course == c && r.date.day == d.day) = [] := by
      rw [← List.length_eq_zero]
      exact h0
    have hfind0 : findSameDay store0 s c d = none := by
      rw [findSameDay, List.find?_eq_none]
      intro x hx
      have := List.filter_eq_nil_iff.mp hnil x hx
      simpa using this
    have e1 : markOne courses userId createFails ⟨store0, nid0, [], []⟩
        ⟨some s, some c, some d, some stat, om⟩ =
        ⟨store0 ++ [⟨nid0, s, c, d, stat, om.getD "manual", userId⟩], nid0 + 1,
         [⟨⟨some s, some c, some d, some stat, om⟩, nid0, .marked⟩], []⟩ := by
      simp [markOne, hco, hs, hfind0, hcf]
    have hfind1 : findSameDay
        (store0 ++ [⟨nid0, s, c, d, stat, om.getD "manual", userId⟩]) s c d =
        some ⟨nid0, s, c, d, stat, om.getD "manual", userId⟩ := by
      rw [findSameDay, List.find?_append]
      rw [findSameDay] at hfind0
      rw [hfind0]
      simp
    have e2 : markOne courses userId createFails
        ⟨store0 ++ [⟨nid0, s, c, d, stat, om.getD "manual", userId⟩], nid0 + 1,
         [⟨⟨some s, some c, some d, some stat, om⟩, nid0, .marked⟩], []⟩
        ⟨some s, some c, some d, some stat, om⟩ =
        ⟨store0 ++ [⟨nid0, s, c, d, stat, om.getD "manual", userId⟩], nid0 + 1,
         [⟨⟨some s, some c, some d, some stat, om⟩, nid0, .marked⟩,
          ⟨⟨some s, some c, some d, some stat, om⟩, nid0, .alreadyMarked⟩], []⟩ := by
      simp [markOne, hco, hs, hfind1]
    have estep : markBatch courses userId createFails store0 nid0
        [⟨some s, some c, some d, some stat, om⟩, ⟨some s, some c, some d, some stat, om⟩] =
        markOne courses userId createFails
          (markOne courses userId createFails ⟨store0, nid0, [], []⟩
            ⟨some s, some c, some d, some stat, om⟩)
          ⟨some s, some c, some d, some stat, om⟩ := rfl
    rw [estep, e1, e2]
    refine ⟨?_, rfl, rfl⟩
    rw [countSameDay, List.filter_append, List.length_append, hnil]
    simp

/-- Witness for claim C3: marking student 1 in course 50 on day 5 when a
same-day record already exists appends an already-marked result without
touching the store, and a two-item batch of the same record persists a
single record. -/
theorem markBatch_same_day_idempotent_witness :
    markOne [c3Course] 9 (fun _ => none) ⟨[c3Existing], 100, [], []⟩ c3Input =
      { (⟨[c3Existing], 100, [], []⟩ : BatchState) with
        results := ([] : List MarkResult) ++ [⟨c3Input, c3Existing.attId, .alreadyMarked⟩] } ∧
    (countSameDay (markBatch [c3Course] 9 (fun _ => none) [] 100 [c3Input, c3Input]).store
        1 50 ⟨5, 0⟩ = 1 ∧
     (markBatch [c3Course] 9 (fun _ => none) [] 100 [c3Input, c3Input]).results =
       [⟨c3Input, 100, .marked⟩, ⟨c3Input, 100, .alreadyMarked⟩] ∧
     (markBatch [c3Course] 9 (fun _ => none) [] 100 [c3Input, c3Input]).errors = []) := by
  constructor
  · exact markBatch_same_day_idempotent.1 [c3Course] 9 (fun _ => none)
      ⟨[c3Existing], 100, [], []⟩ c3Input 1 50 ⟨5, 0⟩ "present" c3Course c3Existing
      rfl rfl rfl rfl rfl (by simp [c3Course]) rfl
  · exact markBatch_same_day_idempotent.2 [c3Course] 9 (fun _ => none) [] 100 c3Input
      1 50 ⟨5, 0⟩ "present" c3Course rfl rfl rfl rfl rfl (by simp [c3Course]) rfl rfl

/-- Claim C9: the statistics of GET /attendance/student/:studentId count
the records matching the student, course and date-range filter, the
attendance rate is the rounded ratio of present records to all matching
records times 100, and zero matching records give rate exactly 0. -/
theorem studentStatistics_rate_def :
    ∀ (store : List AttendanceRecord) (sid : OId) (courseF : Option OId)
      (sd ed : Option CalDate),
      (studentStatistics store sid courseF sd ed).total =
        (store.filter (attMatches sid courseF sd ed)).length ∧
      (studentStatistics store sid courseF sd ed).present =
        ((store.filter (attMatches sid courseF sd ed)).filter
          (fun r => r.status == "present")).length ∧
      (studentStatistics store sid courseF sd ed).attendanceRate =
        (if 0 < (studentStatistics store sid courseF sd ed).total then
          jsRound (((studentStatistics store sid courseF sd ed).present : ℚ) /
            ((studentStatistics store sid courseF sd ed).total : ℚ) * 100)
         else 0) ∧
      ((studentStatistics store sid courseF sd ed).total = 0 →
        (studentStatistics store sid courseF sd ed).attendanceRate = 0) := by
  intro store sid courseF sd ed
  refine ⟨rfl, rfl, rfl, ?_⟩
  intro h
  simp only [studentStatistics] at h ⊢
  simp [h]

/-- Witness for claim C9: an empty store yields attendance rate 0. -/
theorem studentStatistics_rate_def_witness :
    (studentStatistics [] 1 none none none).attendanceRate = 0 :=
  (studentStatistics_rate_def [] 1 none none none).2.2.2 rfl

/-- Claim C10: the absent count of the student statistics is the number of
matching records whose status is not present, so late and excused records
are reported inside absent; replacing every late or excused status by
absent changes no statistic, and only present records feed the numerator
of the rate. -/
theorem studentStatistics_absent_counts_nonpresent :
    ∀ (store : List AttendanceRecord) (sid : OId) (courseF : Option OId)
      (sd ed : Option CalDate),
      (studentStatistics store sid courseF sd ed).absent =
        ((store.filter (attMatches sid courseF sd ed)).filter
          (fun r => !(r.status == "present"))).length ∧
      studentStatistics (store.map normalizeLateExcused) sid courseF sd ed =
        studentStatistics store sid courseF sd ed := by
  intro store sid courseF sd ed
  constructor
  · rw [length_filter_not_eq]
    rfl
  · have h1 : (store.map normalizeLateExcused).filter (attMatches sid courseF sd ed) =
        (store.filter (attMatches sid courseF sd ed)).map normalizeLateExcused :=
      filter_map_comm _ _ (normalize_preserves_attMatches sid courseF sd ed) store
    have h2 : ((store.filter (attMatches sid courseF sd ed)).map
          normalizeLateExcused).filter (fun r => r.status == "present") =
        ((store.filter (attMatches sid courseF sd ed)).filter
          (fun r => r.status == "present")).map normalizeLateExcused :=
      filter_map_comm _ _ normalize_preserves_present _
    simp only [studentStatistics, h1, h2, List.length_map]

/-- A student with no records in the class summary keeps the initial rate 0. -/
theorem perStudentStats_zero_rate (records : List AttendanceRecord) (i : OId) :
    (perStudentStats records i).total = 0 → (perStudentStats records i).rate = 0 := by
  intro h
  simp only [perStudentStats] at h ⊢
  simp [h]

/-- Claim C6: the class average is the rounded mean of the rates of only
those students having at least one record in range; students with zero
records stay out of the denominator and out of studentsWithAttendance but
are still listed with rate 0 and counted in totalStudents; for three
students with rates 100, 50 and no records the class average is 75. -/
theorem classSummaryRoute_average_excludes_empty :
    (∀ (students : List Student) (store : List AttendanceRecord) (classId : OId)
       (sec : Option OId) (sd ed : Option CalDate),
       (classSummaryRoute students store classId sec sd ed).1.totalStudents =
         (students.filter (studentInClass classId sec)).length ∧
       (classSummaryRoute students store classId sec sd ed).1.studentsWithAttendance =
         ((classSummaryRoute students store classId sec sd ed).2.filter
           (fun p => p.2.total > 0)).length ∧
       (classSummaryRoute students store classId sec sd ed).1.classAverage =
         (if 0 < (((classSummaryRoute students store classId sec sd ed).2.filter
             (fun p => p.2.total > 0)).map (fun p => p.2.rate)).length then
            jsRound ((((((classSummaryRoute students store classId sec sd ed).2.filter
                (fun p => p.2.total > 0)).map (fun p => p.2.rate)).sum : ℤ) : ℚ) /
              (((((classSummaryRoute students store classId sec sd ed).2.filter
                (fun p => p.2.total > 0)).map (fun p => p.2.rate)).length : ℕ) : ℚ))
          else 0) ∧
       (∀ q ∈ (classSummaryRoute students store classId sec sd ed).2,
         q.2.total = 0 → q.2.rate = 0)) ∧
    classSummaryRoute c6Students c6Store 7 none none none =
      (⟨3, 2, 75⟩, [(1, ⟨1, 1, 0, 100⟩), (2, ⟨2, 1, 1, 50⟩), (3, ⟨0, 0, 0, 0⟩)]) := by
  constructor
  · intro students store classId sec sd ed
    refine ⟨?_, rfl, ?_, ?_⟩
    · simp [classSummaryRoute]
    · rfl
    · intro q hq h0
      simp only [classSummaryRoute, List.mem_map] at hq
      rcases hq with ⟨i, hi, rfl⟩
      exact perStudentStats_zero_rate _ i h0
  · simp [classSummaryRoute, studentInClass, perStudentStats, dateInRange,
      c6Students, c6Store]
    norm_num [jsRound]

/-- Witness for claim C6: in the concrete class, the student without
records is listed with rate 0. -/
theorem classSummaryRoute_average_excludes_empty_witness :
    ((3 : OId), (⟨0, 0, 0, 0⟩ : PerStudentStats)).2.rate = 0 := by
  have h := classSummaryRoute_average_excludes_empty
  refine (h.1 c6Students c6Store 7 none none none).2.2.2 (3, ⟨0, 0, 0, 0⟩) ?_ rfl
  rw [h.2]
  simp

/-- Claim C7: when maxEnrollment is set and current enrollment plus the
incoming ids would exceed it, the whole enroll request is rejected with a
400 whose message cites the maxEnrollment count and nothing is written;
any successful request appends exactly the incoming students not already
enrolled to enrolledStudents. -/
theorem enrollStudents_capacity_guard :
    ∀ (existingStudentIds : List OId) (course : Course) (students : List OId),
      (∀ m : Nat, course.maxEnrollment = some m → m ≠ 0 → students ≠ [] →
        course.enrolledStudents.length + students.length > m →
        enrollStudents existingStudentIds course students =
          .error (400, "Cannot enroll more than " ++ toString m ++
            " students in this course")) ∧
      (∀ c2 newly msg, enrollStudents existingStudentIds course students =
          .ok (c2, newly, msg) →
        newly = students.filter (fun s => !(course.enrolledStudents.contains s)) ∧
        c2.enrolledStudents = course.enrolledStudents ++ newly) := by
  intro existing course students
  constructor
  · intro m hm hm0 hne hover
    have h1 : students.isEmpty = false := by
      rw [← Bool.not_eq_true, List.isEmpty_iff]
      exact hne
    simp [enrollStudents, hm, h1, hm0, hover]
  · intro c2 newly msg hok
    simp only [enrollStudents] at hok
    split at hok
    · exact absurd hok (by simp)
    · split at hok
      · exact absurd hok (by simp)
      · split at hok
        · exact absurd hok (by simp)
        · split at hok
          · next hempty =>
              simp only [Except.ok.injEq, Prod.mk.injEq] at hok
              rcases hok with ⟨rfl, hnew, -⟩
              refine ⟨hnew.symm.trans ?_, ?_⟩
              · exact (List.isEmpty_iff.mp hempty).symm
              · rw [← hnew, List.append_nil]
          · simp only [Except.ok.injEq, Prod.mk.injEq] at hok
            rcases hok with ⟨rfl, rfl, -⟩
            exact ⟨rfl, rfl⟩

/-- Witness for claim C7: a course with one enrolled student and
maxEnrollment 1 rejects a one-student enrollment citing 1, and a course
without a bound appends the one new student. -/
theorem enrollStudents_capacity_guard_witness :
    enrollStudents [] ⟨50, 9, [5], some 1⟩ [6] =
      .error (400, "Cannot enroll more than " ++ toString (1 : Nat) ++
        " students in this course") ∧
    ((([6] : List OId) = ([6] : List OId).filter
        (fun s => !((⟨50, 9, [5], none⟩ : Course).enrolledStudents.contains s))) ∧
     (⟨50, 9, [5, 6], none⟩ : Course).enrolledStudents =
       (⟨50, 9, [5], none⟩ : Course).enrolledStudents ++ [6]) := by
  constructor
  · exact (enrollStudents_capacity_guard [] ⟨50, 9, [5], some 1⟩ [6]).1 1 rfl
      (by decide) (by decide) (by decide)
  · exact (enrollStudents_capacity_guard [6] ⟨50, 9, [5], none⟩ [6]).2
      ⟨50, 9, [5, 6], none⟩ [6] "1 students enrolled successfully" (by rfl)

end SchoolLMS
